import Mathlib

/-!
Shallow embedding of the RSS-search pipeline in `src/main.py`
(Xiaopan-AI/Apify-RSS-Search).

The program fetches RSS/Atom feeds, scores every entry against a query with
fuzzy string matching, optionally weights by recency, and returns a ranked
top-N list.  We embed the three pipeline functions `process_one_entry`,
`parse_one_feed` and `process_results`, and the `local_test` orchestrator.

Modelling decisions, each noted again at the definition it concerns:
 * External collaborators (the `thefuzz` matchers, BeautifulSoup `get_text`,
   `feedparser.parse`, `datetime.utcnow`) are fields of an `Ext` record of
   uninterpreted functions: the claims quantify over them.
 * A Python `dict` lookup of a missing key raises `KeyError`; feed entries
   are records of `Option` fields and a missing field yields `Except.error`.
 * Exceptions and `raise` are `Except.error`; `asyncio.gather` over
   coroutines that never suspend awaits them in list order and re-raises the
   first exception, i.e. `List.mapM` in the `Except` monad.
 * Python floats are idealised as `ℚ`; every concrete value the claims
   touch (fuzzy scores in 0..100 and their products, and the exponent-0
   recency multiplier `x ** 0 = 1.0`) is computed exactly by float
   arithmetic as well, so the idealisation is faithful there.
 * `pandas.sort_values(ascending=False)` computes an ascending argsort and
   reverses it (`nargsort`); the ascending argsort (numpy quicksort, which
   is insertion sort — stable — on small arrays) is modelled as a stable
   insertion sort.  On inputs with pairwise-distinct keys, and on the
   two-element concrete inputs used below, every sort algorithm agrees
   with this model.
 * `DataFrame.head(n)` is Python slicing `l[:n]`: the first `n` elements
   for `n ≥ 0`, and all but the last `|n|` elements for `n < 0`.
-/

namespace RSSSearch

/-- One feed entry as produced by `feedparser`: a dict whose keys may be
absent (`Option`).  `published_parsed` holds the epoch-seconds value that
`datetime.datetime(*published[:6]).replace(microsecond=0).timestamp()`
yields for the `time.struct_time` of the entry; the calendar conversion is
collapsed to its resulting integral timestamp. -/
structure Entry where
  title : Option String
  link : Option String
  published_parsed : Option ℤ
  description : Option String
deriving DecidableEq

/-- The dict returned by `process_one_entry` (main.py lines 46-53). -/
structure Record where
  title : String
  link : String
  text : String
  recency_score : ℚ
  title_score : ℤ
  description_score : ℤ
deriving DecidableEq

/-- A `Record` with the derived `score` column added by `process_results`
(main.py lines 102-104). -/
structure ScoredRec extends Record where
  score : ℚ
deriving DecidableEq

/-- The external collaborators of the pipeline, uninterpreted:
`thefuzz.fuzz.token_set_ratio` and `thefuzz.fuzz.ratio` (integer scores),
the BeautifulSoup text extraction, the sampled `utcnow` timestamp in epoch
seconds (`datetime.utcnow().replace(microsecond=0).timestamp()`), and
`feedparser.parse(text).entries`. -/
structure Ext where
  token_set_ratio : String → String → ℤ
  ratio : String → String → ℤ
  get_text : String → String
  utcnow : ℤ
  parseFeed : String → List Entry

/-- What the network hands `parse_one_feed`: either an `aiohttp` exception
(connection refused, timeout, DNS failure, carried as its message) or an
HTTP response with status, reason and body text. -/
inductive NetOutcome where
  | err (msg : String)
  | resp (status : ℕ) (reason : String) (body : String)
deriving DecidableEq

/-- Embedding of `process_one_entry` (main.py lines 13-53).  Dict lookups happen in
source order (title, link, published_parsed, description); a missing key
raises `KeyError`.  `recency_score = 1.0 * published / utc_timestamp`, and
the match function is `token_set_ratio` only for the literal method string
`"token_set_ratio"`, otherwise `ratio`; the parameter defaults to
`"token_set_ratio"`. -/
def process_one_entry (ext : Ext) (entry : Entry) (query : String)
    (method : String := "token_set_ratio") : Except String Record :=
  let utc_timestamp : ℚ := (ext.utcnow : ℚ)
  match entry.title with
  | none => .error "KeyError: title"
  | some title =>
    match entry.link with
    | none => .error "KeyError: link"
    | some link =>
      match entry.published_parsed with
      | none => .error "KeyError: published_parsed"
      | some pub =>
        match entry.description with
        | none => .error "KeyError: description"
        | some desc =>
          let published : ℚ := (pub : ℚ)
          let description := ext.get_text desc
          let match_func :=
            match method with
            | "token_set_ratio" => ext.token_set_ratio
            | _ => ext.ratio
          let title_score := match_func query title
          let description_score := match_func query description
          let recency_score : ℚ := 1 * published / utc_timestamp
          .ok { title := title, link := link, text := description,
                recency_score := recency_score, title_score := title_score,
                description_score := description_score }

/-- Embedding of `parse_one_feed` (main.py lines 56-79).  There is no `try/except`: an
`aiohttp` exception propagates out of the coroutine (`Except.error`).  A
response with status other than 200 logs a warning naming the URL and
status and returns the empty list; only status 200 reaches
`feedparser.parse` and per-entry scoring, whose first exception
`asyncio.gather` re-raises.  The returned pair is (warnings logged via
`Actor.log.warning`, returned result list); the Python return value is the
second component.  The `proxy`, `actor` and `timeout` arguments only shape
the external request, which is modelled by the `net` input. -/
def parse_one_feed (ext : Ext) (url : String) (query : String)
    (net : NetOutcome) : Except String (List String × List Record) :=
  match net with
  | .err e => .error e
  | .resp status reason body =>
    if status ≠ 200 then
      .ok ([s!"Error {status} fetching URL {url}: {reason}"], [])
    else
      match (ext.parseFeed body).mapM
          (fun entry => process_one_entry ext entry query) with
      | .error e => .error e
      | .ok results => .ok ([], results)

/-- The derived `score` column (main.py lines 102-104):
`score = title_score * description_score` then
`score *= recency_score ** recency_exponent`. -/
def addScore (recency_exponent : ℤ) (r : Record) : ScoredRec :=
  { r with score :=
      ((r.title_score : ℚ) * (r.description_score : ℚ)) *
        r.recency_score ^ recency_exponent }

/-- Embedding of `df.sort_values("score", ascending=False)` (main.py line 107): pandas
`nargsort` sorts ascending by the key and reverses the whole indexer; the
ascending sort is modelled as a stable insertion sort (see the header
note on sort kinds). -/
def sortScoreDesc (l : List ScoredRec) : List ScoredRec :=
  (List.insertionSort (fun a b => a.score ≤ b.score) l).reverse

/-- Embedding of `DataFrame.head(n)` = Python slice `l[:n]`: first `n` elements when
`n ≥ 0`, all but the last `|n|` when `n < 0`. -/
def pandasHead (n : ℤ) (l : List ScoredRec) : List ScoredRec :=
  if 0 ≤ n then l.take n.toNat else l.take ((l.length : ℤ) + n).toNat

/-- Embedding of `process_results` (main.py lines 82-108).  The list of per-feed lists
is flattened (the `if item` truthiness filter only drops empty dicts, and
every record dict is non-empty, so it drops nothing); on a non-empty
result the score column is derived, rows are sorted descending by score
and the first `min(top_n, len)` are returned via `head`; on an empty
result `ValueError("No results found")` is raised.  `sort_by` is `"score"`
at every call site and is modelled as fixed. -/
def process_results (res : List (List Record)) (top_n : ℤ)
    (recency_exponent : ℤ) : Except String (List ScoredRec) :=
  let results := res.flatten
  if 0 < results.length then
    let scored := results.map (addScore recency_exponent)
    let sorted := sortScoreDesc scored
    let top_n' := min top_n (results.length : ℤ)
    .ok (pandasHead top_n' sorted)
  else
    .error "No results found"

/-- Embedding of `local_test` (main.py lines 134-151): one `parse_one_feed` task per
feed URL (each feed paired here with its network outcome), gathered in
order, then `process_results`.  `args.method` is parsed on line 138 but
line 143 calls `parse_one_feed(url, args.query)` without it, so the
`method` parameter is never forwarded. -/
def local_test (ext : Ext) (feeds : List (String × NetOutcome))
    (query : String) (method : String) (recency_exponent : ℤ)
    (top_n : ℤ) : Except String (List ScoredRec) :=
  match feeds.mapM (fun fd => parse_one_feed ext fd.1 query fd.2) with
  | .error e => .error e
  | .ok results => process_results (results.map Prod.snd) top_n recency_exponent

/-- Descending-by-score sortedness of a result list. -/
def SortedDesc (l : List ScoredRec) : Prop :=
  l.Pairwise (fun a b => b.score ≤ a.score)

/-- The Ranker as §4.6 of the spec words it: sort descending by score and
return the first `min(N, length)` results, clamping out-of-range `N`.
Modelled from the spec for comparison with `process_results`. -/
def rankerClaimed (top_n : ℤ) (l : List ScoredRec) : List ScoredRec :=
  (sortScoreDesc l).take (min top_n (l.length : ℤ)).toNat

/-! Concrete values used to instantiate the theorems. -/

/-- A fully-populated feed entry. -/
def entryEx : Entry :=
  { title := some "New Climate Policy Announced"
    link := some "http://a.example/1"
    published_parsed := some 900
    description := some "<p>Hello</p>" }

/-- An entry whose feed carried no publish time: `published_parsed` absent. -/
def entryNoPub : Entry :=
  { title := some "T", link := some "L",
    published_parsed := none, description := some "D" }

/-- Concrete external collaborators: constant fuzzy scores, identity text
extraction, `utcnow` = 1000, and a feed body that parses to one entry. -/
def extEx : Ext :=
  { token_set_ratio := fun _ _ => 50
    ratio := fun _ _ => 40
    get_text := fun s => s
    utcnow := 1000
    parseFeed := fun _ => [entryEx] }

/-- A scored record with derived score 3 (title_score 1 so that the score
product simplifies by `one_mul`). -/
def recA : Record :=
  { title := "A", link := "http://a.example", text := "ta",
    recency_score := 1, title_score := 1, description_score := 3 }

/-- A scored record with derived score 2. -/
def recB : Record :=
  { title := "B", link := "http://b.example", text := "tb",
    recency_score := 1, title_score := 1, description_score := 2 }

/-- A record distinct from `recA` but with the same derived score 3. -/
def recC : Record :=
  { title := "C", link := "http://c.example", text := "tc",
    recency_score := 1, title_score := 1, description_score := 3 }

/-! Order-theoretic facts about the sort used by the Ranker. -/

instance : IsTotal ScoredRec (fun a b => a.score ≤ b.score) :=
  ⟨fun a b => le_total a.score b.score⟩

instance : IsTrans ScoredRec (fun a b => a.score ≤ b.score) :=
  ⟨fun _ _ _ hab hbc => le_trans hab hbc⟩

instance : IsAntisymm ScoredRec (fun a b => b.score < a.score) :=
  ⟨fun _ _ h h' => absurd h (lt_asymm h')⟩

lemma sortScoreDesc_perm (l : List ScoredRec) : (sortScoreDesc l).Perm l :=
  (List.reverse_perm _).trans (List.perm_insertionSort _ l)

lemma sortScoreDesc_sorted (l : List ScoredRec) : SortedDesc (sortScoreDesc l) := by
  unfold sortScoreDesc SortedDesc
  exact List.pairwise_reverse.mpr (List.sorted_insertionSort _ l)

lemma sortScoreDesc_length (l : List ScoredRec) :
    (sortScoreDesc l).length = l.length :=
  (sortScoreDesc_perm l).length_eq

lemma mem_of_mem_pandasHead {r : ScoredRec} {n : ℤ} {l : List ScoredRec}
    (h : r ∈ pandasHead n l) : r ∈ l := by
  unfold pandasHead at h
  split at h
  · exact List.take_subset _ _ h
  · exact List.take_subset _ _ h

/-- Every record an `Except.ok` run of `process_results` returns is
`addScore` of some record of the flattened input. -/
lemma process_results_mem {res : List (List Record)} {N e : ℤ}
    {out : List ScoredRec} (h : process_results res N e = Except.ok out) :
    ∀ r ∈ out, ∃ s ∈ res.flatten, r = addScore e s := by
  intro r hr
  unfold process_results at h
  dsimp only at h
  split at h
  · have hout : out =
        pandasHead (min N (res.flatten.length : ℤ))
          (sortScoreDesc (res.flatten.map (addScore e))) :=
      (Except.ok.injEq _ _).mp h.symm
    rw [hout] at hr
    have h1 : r ∈ sortScoreDesc (res.flatten.map (addScore e)) :=
      mem_of_mem_pandasHead hr
    have h2 : r ∈ res.flatten.map (addScore e) :=
      (sortScoreDesc_perm _).mem_iff.mp h1
    rcases List.mem_map.mp h2 with ⟨s, hs, hse⟩
    exact ⟨s, hs, hse.symm⟩
  · exact absurd h (by simp)

/-- Sorting descending by score is a function of the multiset of records
when no two records share a score. -/
lemma sortScoreDesc_eq_of_perm {l₁ l₂ : List ScoredRec} (hp : l₁.Perm l₂)
    (hnd : l₁.Pairwise (fun a b => a.score ≠ b.score)) :
    sortScoreDesc l₁ = sortScoreDesc l₂ := by
  have hsym : ∀ {x y : ScoredRec}, x.score ≠ y.score → y.score ≠ x.score :=
    fun h => h.symm
  have hperm : (sortScoreDesc l₁).Perm (sortScoreDesc l₂) :=
    ((sortScoreDesc_perm l₁).trans hp).trans (sortScoreDesc_perm l₂).symm
  have hnd₁ : (sortScoreDesc l₁).Pairwise (fun a b => a.score ≠ b.score) :=
    ((sortScoreDesc_perm l₁).pairwise_iff hsym).mpr hnd
  have hnd₂ : (sortScoreDesc l₂).Pairwise (fun a b => a.score ≠ b.score) :=
    (hperm.pairwise_iff hsym).mp hnd₁
  have hstrict : ∀ {l : List ScoredRec}, SortedDesc l →
      l.Pairwise (fun a b => a.score ≠ b.score) →
      l.Pairwise (fun a b => b.score < a.score) := by
    intro l hs hn
    exact (hs.and hn).imp fun h => lt_of_le_of_ne h.1 fun he => h.2 he.symm
  exact List.eq_of_perm_of_sorted hperm
    (hstrict (sortScoreDesc_sorted l₁) hnd₁)
    (hstrict (sortScoreDesc_sorted l₂) hnd₂)

/-- An empty flattened result list makes `process_results` raise
`ValueError("No results found")`. -/
lemma process_results_empty {res : List (List Record)} {N e : ℤ}
    (h : res.flatten = []) :
    process_results res N e = Except.error "No results found" := by
  unfold process_results
  dsimp only
  rw [h]
  rfl

/-- A response with a status other than 200 yields the logged warning and
the empty result list (main.py lines 72-74). -/
lemma parse_one_feed_non200 {ext : Ext} {url query : String} {s : ℕ}
    {reason body : String} (hs : s ≠ 200) :
    parse_one_feed ext url query (NetOutcome.resp s reason body) =
      Except.ok ([s!"Error {s} fetching URL {url}: {reason}"], []) := by
  simp only [parse_one_feed]
  rw [if_pos hs]

/-- When the response of every feed has a non-200 status, gathering the
`parse_one_feed` tasks succeeds and every per-feed result list is empty. -/
lemma mapM_soft_fail {ext : Ext} {query : String} :
    ∀ (feeds : List (String × NetOutcome)),
      (∀ p ∈ feeds, ∃ s reason body,
        p.2 = NetOutcome.resp s reason body ∧ s ≠ 200) →
      ∃ ws, feeds.mapM (fun fd => parse_one_feed ext fd.1 query fd.2) =
          Except.ok ws ∧ ∀ w ∈ ws, w.2 = ([] : List Record) := by
  intro feeds
  induction feeds with
  | nil => exact fun _ => ⟨[], rfl, by simp⟩
  | cons p rest ih =>
    intro h
    rcases h p (List.mem_cons_self p rest) with ⟨s, reason, body, hp2, hs⟩
    rcases ih (fun q hq => h q (List.mem_cons_of_mem p hq)) with ⟨ws, hws, hall⟩
    refine ⟨([s!"Error {s} fetching URL {p.1}: {reason}"], []) :: ws, ?_, ?_⟩
    · rw [List.mapM_cons, hp2, parse_one_feed_non200 hs, hws]
      rfl
    · intro w hw
      rcases List.mem_cons.mp hw with h1 | h2
      · rw [h1]
      · exact hall w h2

/-- Claim C1 (amended): an `aiohttp` network-level failure (connection
refused, timeout, DNS failure) is not caught anywhere in `parse_one_feed`:
the exception propagates out of the fetcher to the orchestrator instead of
being swallowed into an empty sequence.  Only non-200 HTTP statuses get the
soft-failure treatment. -/
theorem claim1_amended (ext : Ext) (url query e : String) :
    parse_one_feed ext url query (NetOutcome.err e) = Except.error e :=
  rfl

/-- Claim C1 counterexample: a concrete connection-refused failure makes
`parse_one_feed` raise rather than return an empty sequence, contradicting
the claim that network-level errors are swallowed and never propagated. -/
theorem claim1_cex :
    parse_one_feed extEx "http://feed.example/rss" "climate"
        (NetOutcome.err "ConnectionRefusedError") =
      Except.error "ConnectionRefusedError" ∧
    parse_one_feed extEx "http://feed.example/rss" "climate"
        (NetOutcome.err "ConnectionRefusedError") ≠
      Except.ok ([], []) :=
  ⟨rfl, fun h => Except.noConfusion h⟩

/-- Claim C2 (amended): scoring an entry whose `published_parsed` field is
absent raises `KeyError` (the lookup on main.py line 31 is unguarded), so
no ScoredResult is produced for it and the exception propagates; the
fetcher does not skip the recency step or default the timestamp. -/
theorem claim2_amended (ext : Ext) (entry : Entry) (query method t l : String)
    (h₁ : entry.title = some t) (h₂ : entry.link = some l)
    (h₃ : entry.published_parsed = none) :
    process_one_entry ext entry query method =
      Except.error "KeyError: published_parsed" := by
  unfold process_one_entry
  rw [h₁, h₂, h₃]

/-- Claim C2 witness: the amended theorem applied to the concrete
timestamp-less entry. -/
theorem claim2_witness :
    process_one_entry extEx entryNoPub "qq" "m" =
      Except.error "KeyError: published_parsed" :=
  claim2_amended extEx entryNoPub "qq" "m" "T" "L" rfl rfl rfl

/-- Claim C2 counterexample: on a concrete entry lacking the published
timestamp, `process_one_entry` raises instead of producing a ScoredResult. -/
theorem claim2_cex :
    entryNoPub.published_parsed = none ∧
    process_one_entry extEx entryNoPub "q" =
      Except.error "KeyError: published_parsed" :=
  ⟨rfl, rfl⟩

/-- Claim C3: an empty flattened sequence of scored entries makes the run
fail with the explicit fatal `ValueError("No results found")` (main.py
line 108); in particular a run in which every feed soft-fails (non-200
status) propagates that fatal error out of the pipeline rather than
swallowing it. -/
theorem claim3_confirmed :
    (∀ (res : List (List Record)) (N e : ℤ), res.flatten = [] →
      process_results res N e = Except.error "No results found") ∧
    (∀ (ext : Ext) (feeds : List (String × NetOutcome))
        (query method : String) (e N : ℤ),
      (∀ p ∈ feeds, ∃ s reason body,
        p.2 = NetOutcome.resp s reason body ∧ s ≠ 200) →
      local_test ext feeds query method e N =
        Except.error "No results found") := by
  constructor
  · intro res N e h
    exact process_results_empty h
  · intro ext feeds query method e N h
    rcases mapM_soft_fail feeds h with ⟨ws, hws, hall⟩
    unfold local_test
    rw [hws]
    refine process_results_empty ?_
    rw [List.flatten_eq_nil_iff]
    intro l hl
    rcases List.mem_map.mp hl with ⟨w, hw, hwl⟩
    rw [← hwl]
    exact hall w hw

/-- Claim C3 witness: the theorem applied to an empty result list and to a
one-feed run whose only feed answers HTTP 404. -/
theorem claim3_witness :
    process_results [[]] 5 0 = Except.error "No results found" ∧
    local_test extEx [("http://feed.example/rss", NetOutcome.resp 404 "Not Found" "b")]
        "q" "m" 0 5 = Except.error "No results found" :=
  ⟨claim3_confirmed.1 [[]] 5 0 rfl,
   claim3_confirmed.2 extEx _ "q" "m" 0 5 (by
    intro p hp
    rcases List.mem_singleton.mp hp with rfl
    exact ⟨404, "Not Found", "b", rfl, by decide⟩)⟩

/-- Claim C4 (amended): on a non-empty flattened input, `process_results`
never fails; it returns a prefix of the descending-by-score sort of the
scored records — the first `min(N, length)` of them when `N ≥ 0`, but for
`N < 0` it returns the first `max(length + N, 0)` records (pandas
`head` slices `l[:n]`), not the zero records that clamping `N ≤ 0`
would give. -/
theorem claim4_amended (res : List (List Record)) (N e : ℤ)
    (h : res.flatten ≠ []) :
    ∃ all : List ScoredRec,
      all.Perm (res.flatten.map (addScore e)) ∧ SortedDesc all ∧
      process_results res N e =
        Except.ok (all.take (if 0 ≤ N then min N.toNat res.flatten.length
          else ((res.flatten.length : ℤ) + N).toNat)) := by
  refine ⟨sortScoreDesc (res.flatten.map (addScore e)),
    sortScoreDesc_perm _, sortScoreDesc_sorted _, ?_⟩
  have hlen : 0 < res.flatten.length := List.length_pos.mpr h
  unfold process_results
  dsimp only
  rw [if_pos hlen]
  unfold pandasHead
  rw [sortScoreDesc_length, List.length_map]
  by_cases hN : 0 ≤ N
  · have h1 : 0 ≤ min N (res.flatten.length : ℤ) :=
      le_min hN (Int.natCast_nonneg _)
    rw [if_pos h1, if_pos hN]
    congr 2
    omega
  · have h1 : ¬ 0 ≤ min N (res.flatten.length : ℤ) := by omega
    rw [if_neg h1, if_neg hN]
    congr 2
    omega

/-- Claim C4 witness: the amended theorem at a one-record input with
`N = -5`. -/
theorem claim4_witness :
    ∃ all : List ScoredRec,
      all.Perm (([[recA]] : List (List Record)).flatten.map (addScore 0)) ∧
      SortedDesc all ∧
      process_results [[recA]] (-5) 0 =
        Except.ok (all.take (if 0 ≤ (-5 : ℤ) then
            min (-5 : ℤ).toNat ([[recA]] : List (List Record)).flatten.length
          else ((([[recA]] : List (List Record)).flatten.length : ℤ) + -5).toNat)) :=
  claim4_amended [[recA]] (-5) 0 (by decide)

/-- Claim C4 counterexample: with two available results and `N = -1` the
code returns one result (pandas `head(-1)` keeps all but the last row),
whereas the claimed clamping of `min(N, length)` returns zero results. -/
theorem claim4_cex :
    process_results [[recA], [recB]] (-1) 0 = Except.ok [addScore 0 recA] ∧
    rankerClaimed (-1)
        ((([[recA], [recB]] : List (List Record)).flatten).map (addScore 0)) = [] := by
  constructor
  · norm_num [process_results, addScore, sortScoreDesc, pandasHead, recA, recB,
      List.insertionSort, List.orderedInsert]
  · rfl

/-- Claim C5: with `recency_exponent = 0` every record the pipeline
returns has `score = title_score * description_score` exactly, whatever
its `recency_score` is (`x ** 0` is the multiplier 1). -/
theorem claim5_confirmed (res : List (List Record)) (N : ℤ)
    (out : List ScoredRec) (h : process_results res N 0 = Except.ok out) :
    ∀ r ∈ out, r.score = (r.title_score : ℚ) * (r.description_score : ℚ) := by
  intro r hr
  rcases process_results_mem h r hr with ⟨s, _, rfl⟩
  simp [addScore]

/-- Claim C5 witness: the theorem at a concrete one-record run. -/
theorem claim5_witness :
    (addScore 0 recA).score =
      ((addScore 0 recA).title_score : ℚ) * ((addScore 0 recA).description_score : ℚ) :=
  claim5_confirmed [[recA]] 1 [addScore 0 recA] rfl (addScore 0 recA)
    (List.mem_singleton.mpr rfl)

/-- Claim C6 (amended): ranking is a function of the multiset of scored
records provided no two distinct records share a derived score: permuting
the flattened input leaves the ranked output identical.  (With tied
scores the output order depends on the input order — see the
counterexample.) -/
theorem claim6_amended (res₁ res₂ : List (List Record)) (N e : ℤ)
    (hp : res₁.flatten.Perm res₂.flatten)
    (hnd : (res₁.flatten.map (addScore e)).Pairwise
      (fun a b => a.score ≠ b.score)) :
    process_results res₁ N e = process_results res₂ N e := by
  have hpm : (res₁.flatten.map (addScore e)).Perm
      (res₂.flatten.map (addScore e)) := hp.map _
  have hsort : sortScoreDesc (res₁.flatten.map (addScore e)) =
      sortScoreDesc (res₂.flatten.map (addScore e)) :=
    sortScoreDesc_eq_of_perm hpm hnd
  have hlen : res₁.flatten.length = res₂.flatten.length := hp.length_eq
  unfold process_results
  dsimp only
  rw [hlen, hsort]

/-- Claim C6 witness: the amended theorem at a two-record input with
distinct scores, split differently across feeds on the two sides. -/
theorem claim6_witness :
    process_results [[recA], [recB]] 7 0 = process_results [[recB, recA]] 7 0 :=
  claim6_amended [[recA], [recB]] [[recB, recA]] 7 0 (by decide)
    (by simp [addScore, recA, recB])

/-- Claim C6 counterexample: two distinct records with the same derived
score; feeding them in the two possible orders yields different ranked
outputs (pandas descending sort reverses a stable ascending sort, so tied
rows come out in reversed arrival order), refuting order-independence of
the ranking in the presence of ties. -/
theorem claim6_cex :
    ([recA, recC] : List Record).Perm [recC, recA] ∧
    process_results [[recA, recC]] 5 0 ≠ process_results [[recC, recA]] 5 0 := by
  constructor
  · exact List.Perm.swap recC recA []
  · norm_num [process_results, addScore, sortScoreDesc, pandasHead, recA, recC,
      List.insertionSort, List.orderedInsert, Record.mk.injEq, ScoredRec.mk.injEq]
    decide

/-- Claim C7 (amended): the soft-failure branch triggers exactly when the
HTTP status differs from 200 (main.py line 72 tests `status != 200`, not
membership in the 2xx range): any non-200 status — 2xx or not — logs the
warning naming the URL and status and returns the empty sequence, and only
status 200 proceeds to parsing and scoring of the entries of the body. -/
theorem claim7_amended (ext : Ext) (url query : String) (status : ℕ)
    (reason body : String) :
    (status ≠ 200 →
      parse_one_feed ext url query (NetOutcome.resp status reason body) =
        Except.ok ([s!"Error {status} fetching URL {url}: {reason}"], [])) ∧
    (status = 200 →
      parse_one_feed ext url query (NetOutcome.resp status reason body) =
        ((ext.parseFeed body).mapM
          (fun entry => process_one_entry ext entry query)).map
            (fun results => (([] : List String), results))) := by
  constructor
  · exact fun hs => parse_one_feed_non200 hs
  · intro hs
    subst hs
    simp only [parse_one_feed]
    rw [if_neg (fun hc => hc rfl)]
    rcases hm : (ext.parseFeed body).mapM
        (fun entry => process_one_entry ext entry query) with e | results
    · rfl
    · rfl

/-- Claim C7 witness: the amended theorem at a 404 response and at a 200
response. -/
theorem claim7_witness :
    parse_one_feed extEx "u" "q" (NetOutcome.resp 404 "NF" "b") =
      Except.ok (["Error 404 fetching URL u: NF"], []) ∧
    parse_one_feed extEx "u" "q" (NetOutcome.resp 200 "OK" "b") =
      ((extEx.parseFeed "b").mapM
        (fun entry => process_one_entry extEx entry "q")).map
          (fun results => (([] : List String), results)) := by
  constructor
  · rw [(claim7_amended extEx "u" "q" 404 "NF" "b").1 (by decide)]
    rfl
  · exact (claim7_amended extEx "u" "q" 200 "OK" "b").2 rfl

/-- Claim C7 counterexample: a 201 response — inside the 2xx range — is
treated as a failure: the fetcher returns the empty sequence even though
the body parses to an entry that scores successfully (the claim says any
2xx response proceeds to parsing and scoring). -/
theorem claim7_cex :
    (parse_one_feed extEx "u2" "q" (NetOutcome.resp 201 "Created" "body")).map
        Prod.snd = Except.ok ([] : List Record) ∧
    ((extEx.parseFeed "body").mapM
        (fun entry => process_one_entry extEx entry "q")).map List.length =
      Except.ok 1 :=
  ⟨rfl, rfl⟩

/-- Claim C8: the `method` input never reaches per-entry scoring: the
orchestrator passes no method to `parse_one_feed` (main.py line 143), so
two runs differing only in `method` are identical, and every entry is
scored with the default `token_set_ratio` strategy. -/
theorem claim8_confirmed :
    (∀ (ext : Ext) (feeds : List (String × NetOutcome))
        (query m₁ m₂ : String) (e N : ℤ),
      local_test ext feeds query m₁ e N = local_test ext feeds query m₂ e N) ∧
    (∀ (ext : Ext) (t l d query : String) (p : ℤ),
      process_one_entry ext
          ({ title := some t, link := some l,
             published_parsed := some p, description := some d }) query =
        Except.ok
          ({ title := t, link := l, text := ext.get_text d,
             recency_score := 1 * (p : ℚ) / (ext.utcnow : ℚ),
             title_score := ext.token_set_ratio query t,
             description_score := ext.token_set_ratio query (ext.get_text d) })) :=
  ⟨fun _ _ _ _ _ _ _ => rfl, fun _ _ _ _ _ _ => rfl⟩

/-- Claim C9: ranking only adds the derived `score` column, reorders and
truncates: every output record agrees with some flattened input record on
title, link, text, title_score, description_score and recency_score. -/
theorem claim9_confirmed (res : List (List Record)) (N e : ℤ)
    (out : List ScoredRec) (h : process_results res N e = Except.ok out) :
    ∀ r ∈ out, ∃ s, s ∈ res.flatten ∧
      r.title = s.title ∧ r.link = s.link ∧ r.text = s.text ∧
      r.title_score = s.title_score ∧
      r.description_score = s.description_score ∧
      r.recency_score = s.recency_score ∧
      r.score = ((s.title_score : ℚ) * (s.description_score : ℚ)) *
        s.recency_score ^ e := by
  intro r hr
  rcases process_results_mem h r hr with ⟨s, hs, rfl⟩
  exact ⟨s, hs, rfl, rfl, rfl, rfl, rfl, rfl, rfl⟩

/-- Claim C9 witness: the theorem at a concrete one-record run. -/
theorem claim9_witness :
    ∃ s, s ∈ ([[recB]] : List (List Record)).flatten ∧
      (addScore 2 recB).title = s.title ∧ (addScore 2 recB).link = s.link ∧
      (addScore 2 recB).text = s.text ∧
      (addScore 2 recB).title_score = s.title_score ∧
      (addScore 2 recB).description_score = s.description_score ∧
      (addScore 2 recB).recency_score = s.recency_score ∧
      (addScore 2 recB).score =
        ((s.title_score : ℚ) * (s.description_score : ℚ)) *
          s.recency_score ^ (2 : ℤ) :=
  claim9_confirmed [[recB]] 3 2 [addScore 2 recB] rfl (addScore 2 recB)
    (List.mem_singleton.mpr rfl)

/-- Claim C10: `recency_score` is computed unconditionally as the
published-timestamp over the sampled current-UTC timestamp
(main.py line 45), and the field survives into the pipeline output even
with the recency exponent 0 (recency disabled). -/
theorem claim10_confirmed :
    (∀ (ext : Ext) (t l d query method : String) (p : ℤ),
      (process_one_entry ext
          ({ title := some t, link := some l,
             published_parsed := some p, description := some d })
          query method).map Record.recency_score =
        Except.ok (1 * (p : ℚ) / (ext.utcnow : ℚ))) ∧
    (∀ (res : List (List Record)) (N : ℤ) (out : List ScoredRec),
      process_results res N 0 = Except.ok out →
      ∀ r ∈ out, ∃ s, s ∈ res.flatten ∧ r.recency_score = s.recency_score) := by
  constructor
  · intro ext t l d query method p
    rfl
  · intro res N out h r hr
    rcases process_results_mem h r hr with ⟨s, hs, rfl⟩
    exact ⟨s, hs, rfl⟩

/-- Claim C10 witness: the theorem at a concrete entry and at a concrete
exponent-0 run. -/
theorem claim10_witness :
    (process_one_entry extEx
        ({ title := some "T", link := some "L",
           published_parsed := some 900, description := some "D" })
        "q" "m").map Record.recency_score =
      Except.ok (1 * ((900 : ℤ) : ℚ) / ((extEx.utcnow : ℤ) : ℚ)) ∧
    ∃ s, s ∈ ([[recA]] : List (List Record)).flatten ∧
      (addScore 0 recA).recency_score = s.recency_score :=
  ⟨claim10_confirmed.1 extEx "T" "L" "D" "q" "m" 900,
   claim10_confirmed.2 [[recA]] 2 [addScore 0 recA] rfl (addScore 0 recA)
     (List.mem_singleton.mpr rfl)⟩

end RSSSearch
